import Mathlib

/-!
Verification development for the apixy DataSource core
(`src/apixy/entities/datasource.py` and `src/apixy/entities/merge_strategy.py`).

The Python entities are shallowly embedded:
* pydantic model construction becomes explicit validation functions
  returning `Except String α` (an error models pydantic's `ValidationError`);
* JSON-like runtime values become the inductive `Value`;
* the external `jmespath` library is abstracted by a compile-success
  predicate `jmesOk : String → Bool` and a search function
  `search : String → Value → Value`;
* each `fetch_data` coroutine becomes a pure function of an environment
  describing the transport's behaviour (its outcome and elapsed time),
  returning the result together with a trace of observable events
  (transport calls, jmespath compilations, cursor close, logging).
-/

namespace Apixy

/-- A JSON-like structured value (`Any` payloads in the Python code). -/
inductive Value where
  | null
  | bool (b : Bool)
  | int (n : Int)
  | str (s : String)
  | arr (xs : List Value)
  | obj (fs : List (String × Value))

/-- A Python `Dict[str, Any]`, modelled as an ordered association list. -/
abbrev JsonObj := List (String × Value)

/-! ### Merge strategies (`merge_strategy.py`) -/

/-- `ConcatenationMergeStrategy.apply`: the dict comprehension
`\x7bstr(index): each for index, each in enumerate(data)\x7d`.
Keys `str(0), str(1), …` are pairwise distinct, so the resulting Python
dict is faithfully represented by this ordered association list. -/
def ConcatenationMergeStrategy.apply {α : Type} (data : List α) : List (String × α) :=
  data.enum.map (fun p => (toString p.1, p.2))

/-- `MERGE_STRATEGY_MAPPING`: names of the registered merge strategies. -/
def MERGE_STRATEGY_MAPPING : List String := ["concatenation"]

/-! ### DataSource construction (`datasource.py`)

Construction of a pydantic model runs the field checks in declaration
order and fails with `ValidationError` when any check fails.  The input
to construction distinguishes an omitted field (`Option.none` at the
outer layer) from an explicit `None` (`some none`), since pydantic
applies the declared default only to omitted fields. -/

/-- Raw input fields shared by every DataSource variant. -/
structure CommonInput where
  id : Option Int := none
  type : Option String := none
  name : String
  url : String
  jsonpath : String
  timeout : Option (Option ℚ) := none
  cache_expire : Option (Option Int) := none

/-- `DataSource.validate_json_path`: calls `jmespath.compile(value)` and
returns the string unchanged on success; a `ParseError` becomes
`ValueError("Invalid JsonPath")`. The external jmespath grammar is
abstracted by the predicate `jmesOk`. -/
def DataSource.validate_json_path (jmesOk : String → Bool) (value : String) :
    Except String String :=
  if jmesOk value then .ok value else .error "Invalid JsonPath"

/-- The `type` field of each variant: `Field(regex=r"^<tag>$")` with the
tag itself as default, so the resolved value must equal the tag. -/
def validateTypeTag (tag : String) (t : Option String) : Except String String :=
  if t.getD tag = tag then .ok (t.getD tag) else .error "type tag mismatch"

/-- `timeout: Optional[float] = Field(60, gt=0.0)`: omitted defaults to
`60`; an explicit `None` is allowed (the `gt` constraint is only applied
to non-`None` values); a number must be strictly positive. -/
def validateTimeoutField (t : Option (Option ℚ)) : Except String (Option ℚ) :=
  match t with
  | none => .ok (some 60)
  | some none => .ok none
  | some (some v) => if 0 < v then .ok (some v) else .error "ensure this value is greater than 0"

/-- `cache_expire: Optional[int] = Field(None, ge=0)`. -/
def validateCacheExpire (c : Option (Option Int)) : Except String (Option Int) :=
  match c with
  | none => .ok none
  | some none => .ok none
  | some (some v) => if 0 ≤ v then .ok (some v) else .error "ensure this value is >= 0"

/-- `method: Literal["GET", "POST", "PUT", "DELETE"]`. -/
def validateMethod (m : String) : Except String String :=
  if m = "GET" ∨ m = "POST" ∨ m = "PUT" ∨ m = "DELETE" then .ok m
  else .error "unexpected value"

/-- Modelled from the spec: `validate_nonzero_length`
(`apixy/entities/validators.py`, not among the sources) backs the
`_body_headers_not_empty` validator — an empty mapping is rejected,
while `None`/absent passes. -/
def validate_nonzero_length (v : Option JsonObj) : Except String (Option JsonObj) :=
  match v with
  | some [] => .error "empty mapping not allowed"
  | _ => .ok v

/-- Validated fields of the abstract `DataSource` pydantic model. -/
structure DataSource where
  id : Option Int
  type : String
  name : String
  url : String
  jsonpath : String
  timeout : Option ℚ
  cache_expire : Option Int

/-- Raw input for `HTTPDataSource`. -/
structure HTTPInput extends CommonInput where
  method : String
  body : Option JsonObj := none
  headers : Option JsonObj := none

/-- A validated `HTTPDataSource`. -/
structure HTTPDataSource extends DataSource where
  method : String
  body : Option JsonObj
  headers : Option JsonObj

/-- Construction of `HTTPDataSource`: all pydantic field checks of the
base class plus `method`, the `^http$` type tag and the
`_body_headers_not_empty` validator on `body` and `headers`. -/
def HTTPDataSource.validate (jmesOk : String → Bool) (inp : HTTPInput) :
    Except String HTTPDataSource := do
  let ty ← validateTypeTag "http" inp.type
  let jp ← DataSource.validate_json_path jmesOk inp.jsonpath
  let tmo ← validateTimeoutField inp.timeout
  let ce ← validateCacheExpire inp.cache_expire
  let mth ← validateMethod inp.method
  let bd ← validate_nonzero_length inp.body
  let hd ← validate_nonzero_length inp.headers
  return { id := inp.id, type := ty, name := inp.name, url := inp.url,
           jsonpath := jp, timeout := tmo, cache_expire := ce,
           method := mth, body := bd, headers := hd }

/-- Raw input for `MongoDBDataSource`. -/
structure MongoInput extends CommonInput where
  database : String
  collection : String
  query : JsonObj := []

/-- A validated `MongoDBDataSource`. -/
structure MongoDBDataSource extends DataSource where
  database : String
  collection : String
  query : JsonObj

/-- Construction of `MongoDBDataSource`: base-class checks plus the
`^mongo$` type tag (`database`, `collection`, `query` carry no extra
constraints in the code). -/
def MongoDBDataSource.validate (jmesOk : String → Bool) (inp : MongoInput) :
    Except String MongoDBDataSource := do
  let ty ← validateTypeTag "mongo" inp.type
  let jp ← DataSource.validate_json_path jmesOk inp.jsonpath
  let tmo ← validateTimeoutField inp.timeout
  let ce ← validateCacheExpire inp.cache_expire
  return { id := inp.id, type := ty, name := inp.name, url := inp.url,
           jsonpath := jp, timeout := tmo, cache_expire := ce,
           database := inp.database, collection := inp.collection,
           query := inp.query }

/-- Raw input for `SQLDataSource`. -/
structure SQLInput extends CommonInput where
  query : String

/-- A validated `SQLDataSource`. -/
structure SQLDataSource extends DataSource where
  query : String

/-- Construction of `SQLDataSource`: base-class checks plus the `^sql$`
type tag (`query` is an unvalidated raw string). -/
def SQLDataSource.validate (jmesOk : String → Bool) (inp : SQLInput) :
    Except String SQLDataSource := do
  let ty ← validateTypeTag "sql" inp.type
  let jp ← DataSource.validate_json_path jmesOk inp.jsonpath
  let tmo ← validateTimeoutField inp.timeout
  let ce ← validateCacheExpire inp.cache_expire
  return { id := inp.id, type := ty, name := inp.name, url := inp.url,
           jsonpath := jp, timeout := tmo, cache_expire := ce,
           query := inp.query }

/-- Whether an `Except` is a success. -/
def exceptOk {ε α : Type} : Except ε α → Bool
  | .ok _ => true
  | .error _ => false

/-! ### Fetch (`fetch_data` of each variant)

Each `fetch_data` is an async coroutine; it is embedded as a pure
function of the datasource and an environment describing how the
transport behaves on this call.  `async_timeout.timeout(self.timeout)`
cancels the wrapped block and raises `TimeoutError` when the block's
elapsed time exceeds the bound; `timeout(None)` applies no bound.
Besides the result, each fetch returns a trace of observable events so
that resource handling (cursor close, logging, jmespath compilation)
can be stated. -/

/-- Observable events of one `fetch_data` call. -/
inductive FetchEvent where
  | httpRequest (method url : String)
  | mongoFind (database collection : String)
  | cursorToList
  | cursorClose
  | sqlExecute (query : String)
  | compileJmespath (jsonpath : String)
  | logException (cause : String)
deriving DecidableEq

/-- How a fetch fails: `asyncio.TimeoutError`, the unified
`DataSourceFetchError` (carrying its chained `__cause__`), or an
unwrapped lower-level exception propagating as-is. -/
inductive FetchFailure where
  | timeout
  | fetchError (cause : String)
  | unhandled (cause : String)
deriving DecidableEq

/-- `async_timeout.timeout t`: fires when a bound is set and the block
runs longer than it; `None` means no bound. -/
def timedOut (timeout : Option ℚ) (elapsed : ℚ) : Bool :=
  match timeout with
  | none => false
  | some t => decide (t < elapsed)

/-- Behaviour of the aiohttp request + `response.json()` block:
it may produce parsed data, raise an `aiohttp.ClientError`, or raise
some other exception (e.g. `json.JSONDecodeError` on a malformed
body), which is not a `ClientError`. -/
inductive HttpOutcome where
  | ok (data : Value)
  | clientError (cause : String)
  | otherError (cause : String)

/-- Environment of one HTTP fetch: the transport's outcome and the time
the `async_timeout`-wrapped block takes. -/
structure HttpEnv where
  outcome : HttpOutcome
  elapsed : ℚ

/-- `HTTPDataSource.fetch_data`: inside the timeout block, issue the
request and parse the body; an `aiohttp.ClientError` is logged and
re-raised as `DataSourceFetchError` chained from it; other exceptions
propagate; on success, `jmespath.compile(self.jsonpath).search(data)`
(outside the timeout block) projects the data. -/
def HTTPDataSource.fetch_data (search : String → Value → Value)
    (ds : HTTPDataSource) (env : HttpEnv) :
    Except FetchFailure Value × List FetchEvent :=
  let pre := [FetchEvent.httpRequest ds.method ds.url]
  if timedOut ds.timeout env.elapsed then
    (.error .timeout, pre)
  else
    match env.outcome with
    | .clientError c => (.error (.fetchError c), pre ++ [.logException c])
    | .otherError c => (.error (.unhandled c), pre)
    | .ok data =>
        (.ok (search ds.jsonpath data), pre ++ [.compileJmespath ds.jsonpath])

/-- Environment of one MongoDB fetch: what `cursor.to_list(None)` does
(materialized documents, or an exception), and the elapsed time of the
`async_timeout`-wrapped block. -/
structure MongoEnv where
  toListOutcome : Except String (List Value)
  elapsed : ℚ

/-- `MongoDBDataSource.fetch_data`: open a client, `find` the cursor
(excluding `_id`), then `try: data = await cursor.to_list(None)
finally: await cursor.close()` — the `finally` closes the cursor on
success, failure and timeout cancellation alike; on success,
`jmespath.compile(self.jsonpath).search(data)` projects the documents.
No exception is wrapped into `DataSourceFetchError`. -/
def MongoDBDataSource.fetch_data (search : String → Value → Value)
    (ds : MongoDBDataSource) (env : MongoEnv) :
    Except FetchFailure Value × List FetchEvent :=
  let pre := [FetchEvent.mongoFind ds.database ds.collection, .cursorToList, .cursorClose]
  if timedOut ds.timeout env.elapsed then
    (.error .timeout, pre)
  else
    match env.toListOutcome with
    | .error e => (.error (.unhandled e), pre)
    | .ok docs =>
        (.ok (search ds.jsonpath (.arr docs)), pre ++ [.compileJmespath ds.jsonpath])

/-- Behaviour of the `databases.Database` connect + `fetch_all` block:
rows, a `RuntimeError`, or some other exception. -/
inductive SqlOutcome where
  | ok (rows : List JsonObj)
  | runtimeError (cause : String)
  | otherError (cause : String)

/-- Environment of one SQL fetch. -/
structure SqlEnv where
  outcome : SqlOutcome
  elapsed : ℚ

/-- `SQLDataSource.fetch_data`: inside the timeout block, connect and
`fetch_all(query)`; a `RuntimeError` is logged and re-raised as
`DataSourceFetchError`; on success the rows (as mappings) are projected
by `jmespath.compile(self.jsonpath).search(...)`. -/
def SQLDataSource.fetch_data (search : String → Value → Value)
    (ds : SQLDataSource) (env : SqlEnv) :
    Except FetchFailure Value × List FetchEvent :=
  let pre := [FetchEvent.sqlExecute ds.query]
  if timedOut ds.timeout env.elapsed then
    (.error .timeout, pre)
  else
    match env.outcome with
    | .runtimeError c => (.error (.fetchError c), pre ++ [.logException c])
    | .otherError c => (.error (.unhandled c), pre)
    | .ok rows =>
        (.ok (search ds.jsonpath (.arr (rows.map .obj))), pre ++ [.compileJmespath ds.jsonpath])

/-! ### Cache gateway (`@redis_cache`)

Modelled from the spec: `apixy/cache.py` is not among the sources.  The
spec's contract: `get_or_compute(key, ttl, compute)` returns the stored
value on a hit without invoking `compute`; on a miss it invokes
`compute`, stores the result under `key` with the given ttl (0/absent =
never expires) and returns it; `key` is a fingerprint deterministically
derived from the full DataSource configuration. -/

/-- One cache entry: a key, the stored value, and an absolute expiry
time (`none` = never expires). -/
structure CacheEntry where
  key : String
  value : Value
  expireAt : Option ℚ

/-- Whether an entry is still live at time `now`. -/
def CacheEntry.live (now : ℚ) (e : CacheEntry) : Bool :=
  match e.expireAt with
  | none => true
  | some t => decide (now ≤ t)

/-- Cache read: the stored value of a live entry for `key`, if any. -/
def cacheGet (now : ℚ) (cache : List CacheEntry) (key : String) : Option Value :=
  match cache.find? (fun e => e.key == key && e.live now) with
  | some e => some e.value
  | none => none

/-- Absolute expiry for a new entry: ttl `0` or absent means never. -/
def expiryAt (now : ℚ) (ttl : Option Int) : Option ℚ :=
  match ttl with
  | none => none
  | some t => if t ≤ 0 then none else some (now + (t : ℚ))

/-- Modelled from the spec: the Cache Gateway's
`get_or_compute(key, ttl, compute)`.  Returns the value, the updated
cache, and whether `compute` (the transport fetch) was invoked. -/
def get_or_compute (now : ℚ) (cache : List CacheEntry) (key : String)
    (ttl : Option Int) (compute : Unit → Value) :
    Value × List CacheEntry × Bool :=
  match cacheGet now cache key with
  | some v => (v, cache, false)
  | none =>
      let v := compute ()
      (v, { key := key, value := v, expireAt := expiryAt now ttl } :: cache, true)

/-- Modelled from the spec: the cache key, a fingerprint
deterministically derived from the DataSource's full configuration. -/
def DataSource.fingerprint (ds : DataSource) : String :=
  ds.type ++ "|" ++ ds.name ++ "|" ++ ds.url ++ "|" ++ ds.jsonpath

/-- A fetch routed through `@redis_cache`: `get_or_compute` keyed by the
configuration fingerprint with the configuration's `cache_expire` as
ttl, around the underlying transport fetch. -/
def cachedFetch (now : ℚ) (cache : List CacheEntry) (ds : DataSource)
    (transport : Unit → Value) : Value × List CacheEntry × Bool :=
  get_or_compute now cache ds.fingerprint ds.cache_expire transport

/-! ### Concrete sample instances

Used by the closed witness and counterexample theorems below. -/

/-- A sample jmespath compile predicate for concrete instantiations:
accepts exactly the non-empty strings. -/
def jmesOkSample : String → Bool := fun s => !(s == "")

/-- A sample projection function: the identity on the raw data. -/
def searchSample : String → Value → Value := fun _ v => v

/-- A sample raw HTTP input with all optional fields omitted. -/
def httpInputSample : HTTPInput :=
  { name := "remote", url := "https://api.example.org/items",
    jsonpath := "items", method := "GET" }

/-- The same raw HTTP input with a jsonpath `jmesOkSample` rejects. -/
def httpInputBad : HTTPInput :=
  { name := "remote", url := "https://api.example.org/items",
    jsonpath := "", method := "GET" }

/-- The validated datasource `httpInputSample` constructs. -/
def httpSample : HTTPDataSource :=
  { id := none, type := "http", name := "remote",
    url := "https://api.example.org/items", jsonpath := "items",
    timeout := some 60, cache_expire := none,
    method := "GET", body := none, headers := none }

/-- A validated MongoDB datasource. -/
def mongoSample : MongoDBDataSource :=
  { id := none, type := "mongo", name := "docs", url := "mongodb://localhost",
    jsonpath := "a", timeout := some 60, cache_expire := none,
    database := "db", collection := "events", query := [] }

/-- A validated SQL datasource. -/
def sqlSample : SQLDataSource :=
  { id := none, type := "sql", name := "rows", url := "postgresql://localhost",
    jsonpath := "a", timeout := some 60, cache_expire := none,
    query := "SELECT 1" }

/-- An HTTP transport environment where the request succeeds quickly. -/
def httpEnvOk : HttpEnv := { outcome := .ok (Value.arr []), elapsed := 0 }

/-- An HTTP transport environment raising `aiohttp.ClientError`. -/
def httpEnvClientErr : HttpEnv :=
  { outcome := .clientError "connection refused", elapsed := 0 }

/-- A MongoDB environment where `to_list` succeeds quickly. -/
def mongoEnvOk : MongoEnv := { toListOutcome := .ok [], elapsed := 0 }

/-- A MongoDB environment where `to_list` raises. -/
def mongoEnvErr : MongoEnv :=
  { toListOutcome := .error "server unavailable", elapsed := 0 }

/-- A SQL environment where `fetch_all` succeeds quickly. -/
def sqlEnvOk : SqlEnv := { outcome := .ok [], elapsed := 0 }

/-- A SQL environment raising `RuntimeError`. -/
def sqlEnvRuntimeErr : SqlEnv :=
  { outcome := .runtimeError "connection closed", elapsed := 0 }

/-! ### Characterization of construction

Boolean mirrors of the individual field checks, and lemmas showing that
each variant's `validate` succeeds exactly when every check passes and
that all fields of a successful construction are determined by the
input. These are shared helpers for the claim theorems below. -/

/-- The `^tag$` regex check on the resolved `type` field. -/
def typeTagOk (tag : String) (t : Option String) : Bool :=
  decide (t.getD tag = tag)

/-- The `gt=0.0` constraint on `timeout`, applied to numbers only. -/
def timeoutOk (t : Option (Option ℚ)) : Bool :=
  match t with
  | some (some v) => decide (0 < v)
  | _ => true

/-- The `ge=0` constraint on `cache_expire`, applied to numbers only. -/
def cacheExpireOk (c : Option (Option Int)) : Bool :=
  match c with
  | some (some v) => decide (0 ≤ v)
  | _ => true

/-- The `Literal` check on `method`. -/
def methodOk (m : String) : Bool :=
  decide (m = "GET" ∨ m = "POST" ∨ m = "PUT" ∨ m = "DELETE")

/-- The non-empty-mapping check of `validate_nonzero_length`. -/
def nonemptyOk (v : Option JsonObj) : Bool :=
  match v with
  | some [] => false
  | _ => true

/-- The `timeout` value a successful construction stores: the default
`60` when omitted, the input otherwise. -/
def resolveTimeout (t : Option (Option ℚ)) : Option ℚ :=
  t.getD (some 60)

/-- The `cache_expire` value a successful construction stores. -/
def resolveCacheExpire (c : Option (Option Int)) : Option Int :=
  c.getD none

theorem validateTypeTag_cases (tag : String) (t : Option String) :
    (typeTagOk tag t = true ∧ validateTypeTag tag t = .ok (t.getD tag)) ∨
    (typeTagOk tag t = false ∧ ∃ e, validateTypeTag tag t = .error e) := by
  unfold validateTypeTag typeTagOk
  split <;> simp_all

theorem validate_json_path_cases (jmesOk : String → Bool) (s : String) :
    (jmesOk s = true ∧ DataSource.validate_json_path jmesOk s = .ok s) ∨
    (jmesOk s = false ∧ ∃ e, DataSource.validate_json_path jmesOk s = .error e) := by
  unfold DataSource.validate_json_path
  split <;> simp_all

theorem validateTimeoutField_cases (t : Option (Option ℚ)) :
    (timeoutOk t = true ∧ validateTimeoutField t = .ok (resolveTimeout t)) ∨
    (timeoutOk t = false ∧ ∃ e, validateTimeoutField t = .error e) := by
  rcases t with _ | _ | v
  · simp [validateTimeoutField, timeoutOk, resolveTimeout]
  · simp [validateTimeoutField, timeoutOk, resolveTimeout]
  · rcases lt_or_le 0 v with h | h
    · exact Or.inl (by simp [validateTimeoutField, timeoutOk, resolveTimeout, h])
    · exact Or.inr (by simp [validateTimeoutField, timeoutOk, not_lt.mpr h])

theorem validateCacheExpire_cases (c : Option (Option Int)) :
    (cacheExpireOk c = true ∧ validateCacheExpire c = .ok (resolveCacheExpire c)) ∨
    (cacheExpireOk c = false ∧ ∃ e, validateCacheExpire c = .error e) := by
  rcases c with _ | _ | v
  · simp [validateCacheExpire, cacheExpireOk, resolveCacheExpire]
  · simp [validateCacheExpire, cacheExpireOk, resolveCacheExpire]
  · rcases le_or_lt 0 v with h | h
    · exact Or.inl (by simp [validateCacheExpire, cacheExpireOk, resolveCacheExpire, h])
    · exact Or.inr (by simp [validateCacheExpire, cacheExpireOk, not_le.mpr h])

theorem validateMethod_cases (m : String) :
    (methodOk m = true ∧ validateMethod m = .ok m) ∨
    (methodOk m = false ∧ ∃ e, validateMethod m = .error e) := by
  unfold validateMethod methodOk
  split <;> simp_all

theorem validate_nonzero_length_cases (v : Option JsonObj) :
    (nonemptyOk v = true ∧ validate_nonzero_length v = .ok v) ∨
    (nonemptyOk v = false ∧ ∃ e, validate_nonzero_length v = .error e) := by
  unfold validate_nonzero_length nonemptyOk
  rcases v with _ | ⟨_ | _⟩ <;> simp

theorem http_validate_ok_eq (jmesOk : String → Bool) (inp : HTTPInput) :
    exceptOk (HTTPDataSource.validate jmesOk inp) =
      (typeTagOk "http" inp.type && jmesOk inp.jsonpath && timeoutOk inp.timeout &&
       cacheExpireOk inp.cache_expire && methodOk inp.method &&
       nonemptyOk inp.body && nonemptyOk inp.headers) := by
  unfold HTTPDataSource.validate
  rcases validateTypeTag_cases "http" inp.type with ⟨h1, e1⟩ | ⟨h1, ⟨e, e1⟩⟩ <;>
    rw [h1] <;> simp only [e1, bind, Except.bind, exceptOk, Bool.false_and]
  rcases validate_json_path_cases jmesOk inp.jsonpath with ⟨h2, e2⟩ | ⟨h2, ⟨e, e2⟩⟩ <;>
    rw [h2] <;> simp only [e2, exceptOk, Bool.true_and, Bool.false_and]
  rcases validateTimeoutField_cases inp.timeout with ⟨h3, e3⟩ | ⟨h3, ⟨e, e3⟩⟩ <;>
    rw [h3] <;> simp only [e3, exceptOk, Bool.true_and, Bool.false_and]
  rcases validateCacheExpire_cases inp.cache_expire with ⟨h4, e4⟩ | ⟨h4, ⟨e, e4⟩⟩ <;>
    rw [h4] <;> simp only [e4, exceptOk, Bool.true_and, Bool.false_and]
  rcases validateMethod_cases inp.method with ⟨h5, e5⟩ | ⟨h5, ⟨e, e5⟩⟩ <;>
    rw [h5] <;> simp only [e5, exceptOk, Bool.true_and, Bool.false_and]
  rcases validate_nonzero_length_cases inp.body with ⟨h6, e6⟩ | ⟨h6, ⟨e, e6⟩⟩ <;>
    rw [h6] <;> simp only [e6, exceptOk, Bool.true_and, Bool.false_and]
  rcases validate_nonzero_length_cases inp.headers with ⟨h7, e7⟩ | ⟨h7, ⟨e, e7⟩⟩ <;>
    rw [h7] <;> simp only [e7, exceptOk, Bool.true_and, Bool.false_and, pure, Except.pure]

theorem http_validate_fields (jmesOk : String → Bool) (inp : HTTPInput)
    (ds : HTTPDataSource) (h : HTTPDataSource.validate jmesOk inp = .ok ds) :
    ds = { id := inp.id, type := inp.type.getD "http", name := inp.name,
           url := inp.url, jsonpath := inp.jsonpath,
           timeout := resolveTimeout inp.timeout,
           cache_expire := resolveCacheExpire inp.cache_expire,
           method := inp.method, body := inp.body, headers := inp.headers } := by
  unfold HTTPDataSource.validate at h
  rcases validateTypeTag_cases "http" inp.type with ⟨h1, e1⟩ | ⟨h1, ⟨e, e1⟩⟩ <;>
    simp only [e1, bind, Except.bind] at h
  rcases validate_json_path_cases jmesOk inp.jsonpath with ⟨h2, e2⟩ | ⟨h2, ⟨e, e2⟩⟩ <;>
    simp only [e2] at h
  rcases validateTimeoutField_cases inp.timeout with ⟨h3, e3⟩ | ⟨h3, ⟨e, e3⟩⟩ <;>
    simp only [e3] at h
  rcases validateCacheExpire_cases inp.cache_expire with ⟨h4, e4⟩ | ⟨h4, ⟨e, e4⟩⟩ <;>
    simp only [e4] at h
  rcases validateMethod_cases inp.method with ⟨h5, e5⟩ | ⟨h5, ⟨e, e5⟩⟩ <;>
    simp only [e5] at h
  rcases validate_nonzero_length_cases inp.body with ⟨h6, e6⟩ | ⟨h6, ⟨e, e6⟩⟩ <;>
    simp only [e6] at h
  rcases validate_nonzero_length_cases inp.headers with ⟨h7, e7⟩ | ⟨h7, ⟨e, e7⟩⟩ <;>
    simp only [e7, pure, Except.pure, Except.ok.injEq] at h
  all_goals simp_all

theorem mongo_validate_ok_eq (jmesOk : String → Bool) (inp : MongoInput) :
    exceptOk (MongoDBDataSource.validate jmesOk inp) =
      (typeTagOk "mongo" inp.type && jmesOk inp.jsonpath && timeoutOk inp.timeout &&
       cacheExpireOk inp.cache_expire) := by
  unfold MongoDBDataSource.validate
  rcases validateTypeTag_cases "mongo" inp.type with ⟨h1, e1⟩ | ⟨h1, ⟨e, e1⟩⟩ <;>
    rw [h1] <;> simp only [e1, bind, Except.bind, exceptOk, Bool.false_and]
  rcases validate_json_path_cases jmesOk inp.jsonpath with ⟨h2, e2⟩ | ⟨h2, ⟨e, e2⟩⟩ <;>
    rw [h2] <;> simp only [e2, exceptOk, Bool.true_and, Bool.false_and]
  rcases validateTimeoutField_cases inp.timeout with ⟨h3, e3⟩ | ⟨h3, ⟨e, e3⟩⟩ <;>
    rw [h3] <;> simp only [e3, exceptOk, Bool.true_and, Bool.false_and]
  rcases validateCacheExpire_cases inp.cache_expire with ⟨h4, e4⟩ | ⟨h4, ⟨e, e4⟩⟩ <;>
    rw [h4] <;> simp only [e4, exceptOk, Bool.true_and, Bool.false_and, pure, Except.pure]

theorem mongo_validate_fields (jmesOk : String → Bool) (inp : MongoInput)
    (ds : MongoDBDataSource) (h : MongoDBDataSource.validate jmesOk inp = .ok ds) :
    ds = { id := inp.id, type := inp.type.getD "mongo", name := inp.name,
           url := inp.url, jsonpath := inp.jsonpath,
           timeout := resolveTimeout inp.timeout,
           cache_expire := resolveCacheExpire inp.cache_expire,
           database := inp.database, collection := inp.collection,
           query := inp.query } := by
  unfold MongoDBDataSource.validate at h
  rcases validateTypeTag_cases "mongo" inp.type with ⟨h1, e1⟩ | ⟨h1, ⟨e, e1⟩⟩ <;>
    simp only [e1, bind, Except.bind] at h
  rcases validate_json_path_cases jmesOk inp.jsonpath with ⟨h2, e2⟩ | ⟨h2, ⟨e, e2⟩⟩ <;>
    simp only [e2] at h
  rcases validateTimeoutField_cases inp.timeout with ⟨h3, e3⟩ | ⟨h3, ⟨e, e3⟩⟩ <;>
    simp only [e3] at h
  rcases validateCacheExpire_cases inp.cache_expire with ⟨h4, e4⟩ | ⟨h4, ⟨e, e4⟩⟩ <;>
    simp only [e4, pure, Except.pure, Except.ok.injEq] at h
  all_goals simp_all

theorem sql_validate_ok_eq (jmesOk : String → Bool) (inp : SQLInput) :
    exceptOk (SQLDataSource.validate jmesOk inp) =
      (typeTagOk "sql" inp.type && jmesOk inp.jsonpath && timeoutOk inp.timeout &&
       cacheExpireOk inp.cache_expire) := by
  unfold SQLDataSource.validate
  rcases validateTypeTag_cases "sql" inp.type with ⟨h1, e1⟩ | ⟨h1, ⟨e, e1⟩⟩ <;>
    rw [h1] <;> simp only [e1, bind, Except.bind, exceptOk, Bool.false_and]
  rcases validate_json_path_cases jmesOk inp.jsonpath with ⟨h2, e2⟩ | ⟨h2, ⟨e, e2⟩⟩ <;>
    rw [h2] <;> simp only [e2, exceptOk, Bool.true_and, Bool.false_and]
  rcases validateTimeoutField_cases inp.timeout with ⟨h3, e3⟩ | ⟨h3, ⟨e, e3⟩⟩ <;>
    rw [h3] <;> simp only [e3, exceptOk, Bool.true_and, Bool.false_and]
  rcases validateCacheExpire_cases inp.cache_expire with ⟨h4, e4⟩ | ⟨h4, ⟨e, e4⟩⟩ <;>
    rw [h4] <;> simp only [e4, exceptOk, Bool.true_and, Bool.false_and, pure, Except.pure]

theorem sql_validate_fields (jmesOk : String → Bool) (inp : SQLInput)
    (ds : SQLDataSource) (h : SQLDataSource.validate jmesOk inp = .ok ds) :
    ds = { id := inp.id, type := inp.type.getD "sql", name := inp.name,
           url := inp.url, jsonpath := inp.jsonpath,
           timeout := resolveTimeout inp.timeout,
           cache_expire := resolveCacheExpire inp.cache_expire,
           query := inp.query } := by
  unfold SQLDataSource.validate at h
  rcases validateTypeTag_cases "sql" inp.type with ⟨h1, e1⟩ | ⟨h1, ⟨e, e1⟩⟩ <;>
    simp only [e1, bind, Except.bind] at h
  rcases validate_json_path_cases jmesOk inp.jsonpath with ⟨h2, e2⟩ | ⟨h2, ⟨e, e2⟩⟩ <;>
    simp only [e2] at h
  rcases validateTimeoutField_cases inp.timeout with ⟨h3, e3⟩ | ⟨h3, ⟨e, e3⟩⟩ <;>
    simp only [e3] at h
  rcases validateCacheExpire_cases inp.cache_expire with ⟨h4, e4⟩ | ⟨h4, ⟨e, e4⟩⟩ <;>
    simp only [e4, pure, Except.pure, Except.ok.injEq] at h
  all_goals simp_all

/-! ### Claim theorems -/

/-- Claim C2: `ConcatenationMergeStrategy.apply` maps the stringified
positional index (in input order) to the corresponding element:
`apply [A, B, C]` is the mapping `0 ↦ A, 1 ↦ B, 2 ↦ C`; `apply []` is
the empty mapping; and `apply [B, A] ≠ apply [A, B]` whenever
`A ≠ B`. -/
theorem claim_C2_concatenation_merge {α : Type} :
    (∀ A B C : α,
      ConcatenationMergeStrategy.apply [A, B, C] = [("0", A), ("1", B), ("2", C)]) ∧
    ConcatenationMergeStrategy.apply ([] : List α) = [] ∧
    (∀ A B : α, A ≠ B →
      ConcatenationMergeStrategy.apply [B, A] ≠ ConcatenationMergeStrategy.apply [A, B]) := by
  refine ⟨fun A B C => ?_, rfl, fun A B hne h => ?_⟩
  · simp only [ConcatenationMergeStrategy.apply, List.enum, List.enumFrom, List.map]
    exact by simp [Prod.ext_iff]; exact ⟨rfl, rfl, rfl⟩
  · simp only [ConcatenationMergeStrategy.apply, List.enum, List.enumFrom, List.map,
      List.cons.injEq, Prod.mk.injEq] at h
    exact hne h.1.2.symm

/-- Witness for C2 at a concrete input: the order-sensitivity hypothesis
`A ≠ B` discharged at `A = 0`, `B = 1`. -/
theorem claim_C2_concatenation_merge_witness :
    ConcatenationMergeStrategy.apply [(1 : Int), 0] ≠
      ConcatenationMergeStrategy.apply [(0 : Int), 1] :=
  claim_C2_concatenation_merge.2.2 0 1 (by decide)

theorem httpSample_validate :
    HTTPDataSource.validate jmesOkSample httpInputSample = .ok httpSample := by
  rfl

/-- Claim C1: for every DataSource variant (HTTP, MongoDB, SQL),
construction succeeds with a syntactically valid jsonpath exactly when
the remaining field checks pass, and a successful construction stores
the jsonpath string unchanged; with a syntactically invalid jsonpath
the conjunction is false, so construction fails and no instance is
produced. -/
theorem claim_C1_jsonpath_validation (jmesOk : String → Bool) :
    (∀ inp : HTTPInput,
      exceptOk (HTTPDataSource.validate jmesOk inp) =
        (typeTagOk "http" inp.type && jmesOk inp.jsonpath && timeoutOk inp.timeout &&
         cacheExpireOk inp.cache_expire && methodOk inp.method &&
         nonemptyOk inp.body && nonemptyOk inp.headers) ∧
      ∀ ds, HTTPDataSource.validate jmesOk inp = .ok ds → ds.jsonpath = inp.jsonpath) ∧
    (∀ inp : MongoInput,
      exceptOk (MongoDBDataSource.validate jmesOk inp) =
        (typeTagOk "mongo" inp.type && jmesOk inp.jsonpath && timeoutOk inp.timeout &&
         cacheExpireOk inp.cache_expire) ∧
      ∀ ds, MongoDBDataSource.validate jmesOk inp = .ok ds → ds.jsonpath = inp.jsonpath) ∧
    (∀ inp : SQLInput,
      exceptOk (SQLDataSource.validate jmesOk inp) =
        (typeTagOk "sql" inp.type && jmesOk inp.jsonpath && timeoutOk inp.timeout &&
         cacheExpireOk inp.cache_expire) ∧
      ∀ ds, SQLDataSource.validate jmesOk inp = .ok ds → ds.jsonpath = inp.jsonpath) := by
  refine ⟨fun inp => ⟨http_validate_ok_eq jmesOk inp, fun ds h => ?_⟩,
          fun inp => ⟨mongo_validate_ok_eq jmesOk inp, fun ds h => ?_⟩,
          fun inp => ⟨sql_validate_ok_eq jmesOk inp, fun ds h => ?_⟩⟩
  · rw [http_validate_fields jmesOk inp ds h]
  · rw [mongo_validate_fields jmesOk inp ds h]
  · rw [sql_validate_fields jmesOk inp ds h]

/-- Witness for C1 at concrete inputs: a valid jsonpath (`"items"`
under `jmesOkSample`) constructs and is stored unchanged, an invalid
one (`""`) makes construction fail. -/
theorem claim_C1_jsonpath_validation_witness :
    httpSample.jsonpath = httpInputSample.jsonpath ∧
    exceptOk (HTTPDataSource.validate jmesOkSample httpInputSample) = true ∧
    exceptOk (HTTPDataSource.validate jmesOkSample httpInputBad) = false := by
  refine ⟨((claim_C1_jsonpath_validation jmesOkSample).1 httpInputSample).2
            httpSample httpSample_validate, ?_, ?_⟩
  · rw [((claim_C1_jsonpath_validation jmesOkSample).1 httpInputSample).1]
    rfl
  · rw [((claim_C1_jsonpath_validation jmesOkSample).1 httpInputBad).1]
    rfl

/-- Claim C4: for every DataSource variant, an explicit numeric
`timeout ≤ 0` makes construction fail; with a numeric `timeout > 0`
construction succeeds exactly when the remaining field checks pass and
the stored value is the input unchanged; an omitted `timeout` defaults
to `60`. -/
theorem claim_C4_timeout_validation (jmesOk : String → Bool) :
    (∀ (inp : HTTPInput) (v : ℚ), inp.timeout = some (some v) →
      (v ≤ 0 → exceptOk (HTTPDataSource.validate jmesOk inp) = false) ∧
      (0 < v → exceptOk (HTTPDataSource.validate jmesOk inp) =
        (typeTagOk "http" inp.type && jmesOk inp.jsonpath &&
         cacheExpireOk inp.cache_expire && methodOk inp.method &&
         nonemptyOk inp.body && nonemptyOk inp.headers))) ∧
    (∀ (inp : HTTPInput) (ds : HTTPDataSource),
      HTTPDataSource.validate jmesOk inp = .ok ds →
      (∀ v, inp.timeout = some (some v) → ds.timeout = some v) ∧
      (inp.timeout = none → ds.timeout = some 60)) ∧
    (∀ (inp : MongoInput) (v : ℚ), inp.timeout = some (some v) →
      (v ≤ 0 → exceptOk (MongoDBDataSource.validate jmesOk inp) = false) ∧
      (0 < v → exceptOk (MongoDBDataSource.validate jmesOk inp) =
        (typeTagOk "mongo" inp.type && jmesOk inp.jsonpath &&
         cacheExpireOk inp.cache_expire))) ∧
    (∀ (inp : MongoInput) (ds : MongoDBDataSource),
      MongoDBDataSource.validate jmesOk inp = .ok ds →
      (∀ v, inp.timeout = some (some v) → ds.timeout = some v) ∧
      (inp.timeout = none → ds.timeout = some 60)) ∧
    (∀ (inp : SQLInput) (v : ℚ), inp.timeout = some (some v) →
      (v ≤ 0 → exceptOk (SQLDataSource.validate jmesOk inp) = false) ∧
      (0 < v → exceptOk (SQLDataSource.validate jmesOk inp) =
        (typeTagOk "sql" inp.type && jmesOk inp.jsonpath &&
         cacheExpireOk inp.cache_expire))) ∧
    (∀ (inp : SQLInput) (ds : SQLDataSource),
      SQLDataSource.validate jmesOk inp = .ok ds →
      (∀ v, inp.timeout = some (some v) → ds.timeout = some v) ∧
      (inp.timeout = none → ds.timeout = some 60)) := by
  refine ⟨fun inp v hv => ⟨fun hle => ?_, fun hlt => ?_⟩,
          fun inp ds h => ⟨fun v hv => ?_, fun hv => ?_⟩,
          fun inp v hv => ⟨fun hle => ?_, fun hlt => ?_⟩,
          fun inp ds h => ⟨fun v hv => ?_, fun hv => ?_⟩,
          fun inp v hv => ⟨fun hle => ?_, fun hlt => ?_⟩,
          fun inp ds h => ⟨fun v hv => ?_, fun hv => ?_⟩⟩
  · rw [http_validate_ok_eq]
    simp [timeoutOk, hv, not_lt.mpr hle]
  · rw [http_validate_ok_eq]
    simp only [timeoutOk, hv, hlt, decide_eq_true_eq, decide_True, Bool.and_true]
  · rw [http_validate_fields jmesOk inp ds h]
    simp [resolveTimeout, hv]
  · rw [http_validate_fields jmesOk inp ds h]
    simp [resolveTimeout, hv]
  · rw [mongo_validate_ok_eq]
    simp [timeoutOk, hv, not_lt.mpr hle]
  · rw [mongo_validate_ok_eq]
    simp only [timeoutOk, hv, hlt, decide_eq_true_eq, decide_True, Bool.and_true]
  · rw [mongo_validate_fields jmesOk inp ds h]
    simp [resolveTimeout, hv]
  · rw [mongo_validate_fields jmesOk inp ds h]
    simp [resolveTimeout, hv]
  · rw [sql_validate_ok_eq]
    simp [timeoutOk, hv, not_lt.mpr hle]
  · rw [sql_validate_ok_eq]
    simp only [timeoutOk, hv, hlt, decide_eq_true_eq, decide_True, Bool.and_true]
  · rw [sql_validate_fields jmesOk inp ds h]
    simp [resolveTimeout, hv]
  · rw [sql_validate_fields jmesOk inp ds h]
    simp [resolveTimeout, hv]

/-- Witness for C4 at concrete inputs: `timeout = -1` rejected,
`timeout` omitted stored as `60`. -/
theorem claim_C4_timeout_validation_witness :
    exceptOk (HTTPDataSource.validate jmesOkSample
      { httpInputSample with timeout := some (some (-1)) }) = false ∧
    httpSample.timeout = some 60 := by
  constructor
  · exact (((claim_C4_timeout_validation jmesOkSample).1
      { httpInputSample with timeout := some (some (-1)) } (-1) rfl).1 (by norm_num))
  · exact ((claim_C4_timeout_validation jmesOkSample).2.1 httpInputSample httpSample
      httpSample_validate).2 rfl

/-- Claim C5: constructing an `HTTPDataSource` with `body` or `headers`
equal to an empty mapping fails validation; with both absent/`None`,
construction succeeds exactly when the remaining field checks pass. -/
theorem claim_C5_empty_body_headers (jmesOk : String → Bool) (inp : HTTPInput) :
    (inp.body = some [] → exceptOk (HTTPDataSource.validate jmesOk inp) = false) ∧
    (inp.headers = some [] → exceptOk (HTTPDataSource.validate jmesOk inp) = false) ∧
    (inp.body = none → inp.headers = none →
      exceptOk (HTTPDataSource.validate jmesOk inp) =
        (typeTagOk "http" inp.type && jmesOk inp.jsonpath && timeoutOk inp.timeout &&
         cacheExpireOk inp.cache_expire && methodOk inp.method)) := by
  refine ⟨fun hb => ?_, fun hh => ?_, fun hb hh => ?_⟩
  · rw [http_validate_ok_eq]
    simp [nonemptyOk, hb]
  · rw [http_validate_ok_eq]
    simp [nonemptyOk, hh]
  · rw [http_validate_ok_eq]
    simp only [nonemptyOk, hb, hh, Bool.and_true]

/-- Witness for C5 at concrete inputs: `body = \x7b\x7d` fails, while the
same input with `body`/`headers` absent succeeds. -/
theorem claim_C5_empty_body_headers_witness :
    exceptOk (HTTPDataSource.validate jmesOkSample
      { httpInputSample with body := some [] }) = false ∧
    exceptOk (HTTPDataSource.validate jmesOkSample httpInputSample) = true := by
  constructor
  · exact (claim_C5_empty_body_headers jmesOkSample
      { httpInputSample with body := some [] }).1 rfl
  · rw [(claim_C5_empty_body_headers jmesOkSample httpInputSample).2.2 rfl rfl]
    rfl

/-- Claim C9: construction with `timeout` explicitly `None` succeeds
whenever the remaining field checks pass (the strictly-positive
constraint applies only to numeric values) and stores `timeout = None`;
a fetch on such an instance never fails with a timeout, whatever the
transport's elapsed time. -/
theorem claim_C9_timeout_none (jmesOk : String → Bool) :
    (∀ inp : HTTPInput, inp.timeout = some none →
      exceptOk (HTTPDataSource.validate jmesOk inp) =
        (typeTagOk "http" inp.type && jmesOk inp.jsonpath &&
         cacheExpireOk inp.cache_expire && methodOk inp.method &&
         nonemptyOk inp.body && nonemptyOk inp.headers) ∧
      ∀ ds, HTTPDataSource.validate jmesOk inp = .ok ds → ds.timeout = none) ∧
    (∀ inp : MongoInput, inp.timeout = some none →
      exceptOk (MongoDBDataSource.validate jmesOk inp) =
        (typeTagOk "mongo" inp.type && jmesOk inp.jsonpath &&
         cacheExpireOk inp.cache_expire) ∧
      ∀ ds, MongoDBDataSource.validate jmesOk inp = .ok ds → ds.timeout = none) ∧
    (∀ inp : SQLInput, inp.timeout = some none →
      exceptOk (SQLDataSource.validate jmesOk inp) =
        (typeTagOk "sql" inp.type && jmesOk inp.jsonpath &&
         cacheExpireOk inp.cache_expire) ∧
      ∀ ds, SQLDataSource.validate jmesOk inp = .ok ds → ds.timeout = none) ∧
    (∀ (search : String → Value → Value) (ds : HTTPDataSource) (env : HttpEnv),
      ds.timeout = none → (HTTPDataSource.fetch_data search ds env).1 ≠ .error .timeout) ∧
    (∀ (search : String → Value → Value) (ds : MongoDBDataSource) (env : MongoEnv),
      ds.timeout = none → (MongoDBDataSource.fetch_data search ds env).1 ≠ .error .timeout) ∧
    (∀ (search : String → Value → Value) (ds : SQLDataSource) (env : SqlEnv),
      ds.timeout = none → (SQLDataSource.fetch_data search ds env).1 ≠ .error .timeout) := by
  refine ⟨fun inp hv => ⟨?_, fun ds h => ?_⟩,
          fun inp hv => ⟨?_, fun ds h => ?_⟩,
          fun inp hv => ⟨?_, fun ds h => ?_⟩,
          fun search ds env h => ?_, fun search ds env h => ?_,
          fun search ds env h => ?_⟩
  · rw [http_validate_ok_eq]
    simp only [timeoutOk, hv, Bool.and_true]
  · rw [http_validate_fields jmesOk inp ds h]
    simp [resolveTimeout, hv]
  · rw [mongo_validate_ok_eq]
    simp only [timeoutOk, hv, Bool.and_true]
  · rw [mongo_validate_fields jmesOk inp ds h]
    simp [resolveTimeout, hv]
  · rw [sql_validate_ok_eq]
    simp only [timeoutOk, hv, Bool.and_true]
  · rw [sql_validate_fields jmesOk inp ds h]
    simp [resolveTimeout, hv]
  · unfold HTTPDataSource.fetch_data
    simp only [timedOut, h]
    cases env.outcome <;> simp
  · unfold MongoDBDataSource.fetch_data
    simp only [timedOut, h]
    cases henv : env.toListOutcome <;> simp [henv]
  · unfold SQLDataSource.fetch_data
    simp only [timedOut, h]
    cases env.outcome <;> simp

/-- Witness for C9 at concrete inputs: `timeout=None` constructs, the
built instance stores `none`, and its fetch does not time out even when
the transport takes 10000 seconds. -/
theorem claim_C9_timeout_none_witness :
    exceptOk (HTTPDataSource.validate jmesOkSample
      { httpInputSample with timeout := some none }) = true ∧
    (HTTPDataSource.fetch_data searchSample { httpSample with timeout := none }
      { outcome := .ok (Value.arr []), elapsed := 10000 }).1 ≠ .error .timeout := by
  constructor
  · rw [((claim_C9_timeout_none jmesOkSample).1
      { httpInputSample with timeout := some none } rfl).1]
    rfl
  · exact (claim_C9_timeout_none jmesOkSample).2.2.2.1 searchSample
      { httpSample with timeout := none }
      { outcome := .ok (Value.arr []), elapsed := 10000 } rfl

/-- Claim C6: `HTTPDataSource.fetch_data` fails with
`DataSourceFetchError` exactly when the transport raises
`aiohttp.ClientError` (and the timeout has not fired first); in that
case the low-level cause is chained onto the error and logged. -/
theorem claim_C6_http_error_classification (search : String → Value → Value)
    (ds : HTTPDataSource) (env : HttpEnv) :
    (∀ c, (HTTPDataSource.fetch_data search ds env).1 = .error (.fetchError c) ↔
      timedOut ds.timeout env.elapsed = false ∧ env.outcome = .clientError c) ∧
    (∀ c, timedOut ds.timeout env.elapsed = false → env.outcome = .clientError c →
      FetchEvent.logException c ∈ (HTTPDataSource.fetch_data search ds env).2) := by
  constructor
  · intro c
    unfold HTTPDataSource.fetch_data
    cases ht : timedOut ds.timeout env.elapsed <;>
      cases henv : env.outcome <;> simp [henv]
  · intro c ht henv
    unfold HTTPDataSource.fetch_data
    simp [ht, henv]

/-- Witness for C6 at a concrete input: a fast `ClientError` transport
produces `DataSourceFetchError` chained from `"connection refused"`,
which is also logged. -/
theorem claim_C6_http_error_classification_witness :
    (HTTPDataSource.fetch_data searchSample httpSample httpEnvClientErr).1 =
      .error (.fetchError "connection refused") ∧
    FetchEvent.logException "connection refused" ∈
      (HTTPDataSource.fetch_data searchSample httpSample httpEnvClientErr).2 := by
  constructor
  · exact ((claim_C6_http_error_classification searchSample httpSample
      httpEnvClientErr).1 "connection refused").mpr ⟨rfl, rfl⟩
  · exact (claim_C6_http_error_classification searchSample httpSample
      httpEnvClientErr).2 "connection refused" rfl rfl

/-- Claim C7: in `MongoDBDataSource.fetch_data` the cursor is closed on
every exit path — when `to_list` succeeds, when it raises, and when the
timeout cancels the block (the `finally` clause). -/
theorem claim_C7_mongo_cursor_closed (search : String → Value → Value)
    (ds : MongoDBDataSource) (env : MongoEnv) :
    FetchEvent.cursorClose ∈ (MongoDBDataSource.fetch_data search ds env).2 := by
  unfold MongoDBDataSource.fetch_data
  cases ht : timedOut ds.timeout env.elapsed <;>
    cases henv : env.toListOutcome <;> simp [henv]

/-- Claim C10: `MongoDBDataSource.fetch_data` never fails with
`DataSourceFetchError` — any `to_list` failure propagates unwrapped —
while the HTTP and SQL variants do produce it for some transport
behaviour. -/
theorem claim_C10_mongo_unwrapped (search : String → Value → Value)
    (ds : MongoDBDataSource) (env : MongoEnv) :
    (∀ c, (MongoDBDataSource.fetch_data search ds env).1 ≠ .error (.fetchError c)) ∧
    (∃ (dsH : HTTPDataSource) (envH : HttpEnv) (c : String),
      (HTTPDataSource.fetch_data search dsH envH).1 = .error (.fetchError c)) ∧
    (∃ (dsS : SQLDataSource) (envS : SqlEnv) (c : String),
      (SQLDataSource.fetch_data search dsS envS).1 = .error (.fetchError c)) := by
  refine ⟨fun c => ?_, ⟨httpSample, httpEnvClientErr, "connection refused", rfl⟩,
          ⟨sqlSample, sqlEnvRuntimeErr, "connection closed", rfl⟩⟩
  unfold MongoDBDataSource.fetch_data
  cases ht : timedOut ds.timeout env.elapsed <;>
    cases henv : env.toListOutcome <;> simp [henv]

/-- Witness for C10 at concrete inputs: a failing `to_list` surfaces as
an unwrapped error, not as `DataSourceFetchError`. -/
theorem claim_C10_mongo_unwrapped_witness :
    (MongoDBDataSource.fetch_data searchSample mongoSample mongoEnvErr).1 ≠
      .error (.fetchError "server unavailable") ∧
    (MongoDBDataSource.fetch_data searchSample mongoSample mongoEnvErr).1 =
      .error (.unhandled "server unavailable") :=
  ⟨(claim_C10_mongo_unwrapped searchSample mongoSample mongoEnvErr).1
    "server unavailable", rfl⟩

/-- Counterexample to claim C3 as stated ("no fetch re-parses the
jsonpath string"): a concrete successful fetch on `httpSample` emits a
`jmespath.compile` event for its jsonpath. -/
theorem claim_C3_counterexample :
    FetchEvent.compileJmespath "items" ∈
      (HTTPDataSource.fetch_data searchSample httpSample httpEnvOk).2 := by
  decide

/-- Claim C3 (amended): the jsonpath is compiled at construction time
for validation only — the compiled expression is discarded — and every
fetch that reaches the projection step compiles the jsonpath string
again. -/
theorem claim_C3_fetch_recompiles (search : String → Value → Value) :
    (∀ (ds : HTTPDataSource) (env : HttpEnv) (d : Value),
      timedOut ds.timeout env.elapsed = false → env.outcome = .ok d →
      FetchEvent.compileJmespath ds.jsonpath ∈
        (HTTPDataSource.fetch_data search ds env).2) ∧
    (∀ (ds : MongoDBDataSource) (env : MongoEnv) (docs : List Value),
      timedOut ds.timeout env.elapsed = false → env.toListOutcome = .ok docs →
      FetchEvent.compileJmespath ds.jsonpath ∈
        (MongoDBDataSource.fetch_data search ds env).2) ∧
    (∀ (ds : SQLDataSource) (env : SqlEnv) (rows : List JsonObj),
      timedOut ds.timeout env.elapsed = false → env.outcome = .ok rows →
      FetchEvent.compileJmespath ds.jsonpath ∈
        (SQLDataSource.fetch_data search ds env).2) := by
  refine ⟨fun ds env d ht henv => ?_, fun ds env docs ht henv => ?_,
          fun ds env rows ht henv => ?_⟩
  · unfold HTTPDataSource.fetch_data
    simp [ht, henv]
  · unfold MongoDBDataSource.fetch_data
    simp [ht, henv]
  · unfold SQLDataSource.fetch_data
    simp [ht, henv]

/-- Witness for the amended C3 at concrete inputs: the successful
fetches of all three sample datasources each re-compile their
jsonpath. -/
theorem claim_C3_fetch_recompiles_witness :
    FetchEvent.compileJmespath "items" ∈
      (HTTPDataSource.fetch_data searchSample httpSample httpEnvOk).2 ∧
    FetchEvent.compileJmespath "a" ∈
      (MongoDBDataSource.fetch_data searchSample mongoSample mongoEnvOk).2 ∧
    FetchEvent.compileJmespath "a" ∈
      (SQLDataSource.fetch_data searchSample sqlSample sqlEnvOk).2 :=
  ⟨(claim_C3_fetch_recompiles searchSample).1 httpSample httpEnvOk
      (Value.arr []) rfl rfl,
   (claim_C3_fetch_recompiles searchSample).2.1 mongoSample mongoEnvOk [] rfl rfl,
   (claim_C3_fetch_recompiles searchSample).2.2 sqlSample sqlEnvOk [] rfl rfl⟩

/-- Claim C8: fetching twice through the cache gateway on the same
unchanged configuration, the second time within the ttl window, invokes
the underlying transport only on the first call (the first call is a
miss and computes, the second is a hit that returns the identical
stored value without computing). -/
theorem claim_C8_cache_idempotent (ds : DataSource) (transport : Unit → Value)
    (now₀ now₁ : ℚ)
    (hwin : ∀ t : Int, ds.cache_expire = some t → 0 < t → now₁ ≤ now₀ + (t : ℚ)) :
    (cachedFetch now₀ [] ds transport).2.2 = true ∧
    (cachedFetch now₁ (cachedFetch now₀ [] ds transport).2.1 ds transport).1 =
      (cachedFetch now₀ [] ds transport).1 ∧
    (cachedFetch now₁ (cachedFetch now₀ [] ds transport).2.1 ds transport).2.2 = false := by
  have h1 : cachedFetch now₀ [] ds transport =
      (transport (), [⟨ds.fingerprint, transport (), expiryAt now₀ ds.cache_expire⟩], true) :=
    rfl
  have hlive : CacheEntry.live now₁
      ⟨ds.fingerprint, transport (), expiryAt now₀ ds.cache_expire⟩ = true := by
    unfold CacheEntry.live expiryAt
    rcases hce : ds.cache_expire with _ | t
    · rfl
    · by_cases hle : t ≤ 0
      · simp [hle]
      · have hpos : 0 < t := lt_of_not_le hle
        have := hwin t hce hpos
        simp [hle, this]
  have h2 : cachedFetch now₁
        [⟨ds.fingerprint, transport (), expiryAt now₀ ds.cache_expire⟩] ds transport =
      (transport (), [⟨ds.fingerprint, transport (), expiryAt now₀ ds.cache_expire⟩], false) := by
    unfold cachedFetch get_or_compute cacheGet
    simp [List.find?, hlive]
  rw [h1, h2]
  exact ⟨rfl, rfl, rfl⟩

/-- Witness for C8 at concrete inputs: `cache_expire = 30`, first fetch
at time 0, second at time 1. -/
theorem claim_C8_cache_idempotent_witness :
    (cachedFetch 0 [] { httpSample.toDataSource with cache_expire := some 30 }
        (fun _ => Value.int 7)).2.2 = true ∧
    (cachedFetch 1
        (cachedFetch 0 [] { httpSample.toDataSource with cache_expire := some 30 }
          (fun _ => Value.int 7)).2.1
        { httpSample.toDataSource with cache_expire := some 30 }
        (fun _ => Value.int 7)).1 =
      (cachedFetch 0 [] { httpSample.toDataSource with cache_expire := some 30 }
        (fun _ => Value.int 7)).1 ∧
    (cachedFetch 1
        (cachedFetch 0 [] { httpSample.toDataSource with cache_expire := some 30 }
          (fun _ => Value.int 7)).2.1
        { httpSample.toDataSource with cache_expire := some 30 }
        (fun _ => Value.int 7)).2.2 = false := by
  refine claim_C8_cache_idempotent
    { httpSample.toDataSource with cache_expire := some 30 }
    (fun _ => Value.int 7) 0 1 ?_
  intro t ht hpos
  have h30 : t = 30 := by
    injection ht with h
    exact h.symm
  subst h30
  norm_num

end Apixy
